import Mathlib

/-!
Shallow embedding of the dependency-injection core of `aspyx`
(`src/aspyx/di/di.py`), covering provider registration, the one-time
static dependency-resolution pass with cycle detection, environments
(containers), scopes (singleton memoization), instance creation and the
init/destroy lifecycle.

Modelling conventions:
* Python classes are identified by numeric keys (`Ty`); a `ClassTable`
  records, per class, its name, module, base classes, constructor
  parameter types, `@inject`-decorated method parameter lists and the
  method markers `@on_init` / `@on_destroy` (this is the structured
  answer of the `TypeDescriptor` metadata provider in
  `aspyx/reflection/reflection.py`, whose `paramTypes` excludes `self`).
* Python `dict`s are association lists with the insertion-order
  semantics of `dict` (update-in-place keeps the position, new keys
  append): `aset` / `alookup`.
* Object identity is modelled by allocation: every constructor call
  draws a fresh numeric id from `World.nextId`; `a is b` becomes
  equality of `Obj` values.
* Raised `InjectorException`s are `Except.error` carrying the message.
* Recursive Python functions are given a `Nat` fuel argument; the fuel
  never changes the semantics on inputs where the Python code
  terminates, it only makes the definitions total.
-/

namespace Aspyx

/-- Identifier of a Python class (a nominal type key). -/
abbrev Ty := Nat

/-- The class `object`, root of every Python class hierarchy. -/
def objectTy : Ty := 0

/-- Metadata of one class as supplied by the reflection layer
(`TypeDescriptor`): name, defining module, direct base classes,
`__init__` parameter types (excluding `self`), the parameter lists of
methods carrying `@inject`, whether the class is abstract, and the
methods carrying the `@on_init` / `@on_destroy` markers. -/
structure ClassInfo where
  name : String := "?"
  module : String := "?"
  bases : List Ty := []
  ctorParams : List Ty := []
  injectParams : List (List Ty) := []
  isAbstract : Bool := false
  onInit : List Nat := []
  onDestroy : List Nat := []
  deriving Repr, DecidableEq, Inhabited

/-- The table of all classes of a scenario. -/
abbrev ClassTable := List (Ty × ClassInfo)

/-- Association-list lookup, mirroring Python `dict.get`. -/
def alookup {κ α : Type} [DecidableEq κ] (m : List (κ × α)) (k : κ) : Option α :=
  match m with
  | [] => none
  | (k', v) :: rest => if k' = k then some v else alookup rest k

/-- Association-list update, mirroring Python `dict.__setitem__`:
an existing key keeps its position, a new key is appended. -/
def aset {κ α : Type} [DecidableEq κ] (m : List (κ × α)) (k : κ) (v : α) : List (κ × α) :=
  match m with
  | [] => [(k, v)]
  | (k', v') :: rest => if k' = k then (k, v) :: rest else (k', v') :: aset rest k v

/-- Metadata of class `t` (classes absent from the table behave as an
empty descriptor; scenarios always list every class they use). -/
def classInfo (ct : ClassTable) (t : Ty) : ClassInfo :=
  (alookup ct t).getD {}

/-- Python `issubclass`: reflexive, and transitive over the recorded
direct bases. Fueled by the (finite) depth of the hierarchy. -/
def issubclass (ct : ClassTable) : Nat → Ty → Ty → Bool
  | 0, _, _ => false
  | fuel + 1, a, b =>
    a == b || (classInfo ct a).bases.any (fun s => issubclass ct fuel s b)

/-- Embedding of `ClassInstanceProvider` registration data (di.py 292-306):
for a class provider, `host = type`, so the produced type also carries the
declaration module. `eager` and `singleton` are the `@injectable` flags. -/
structure ClassProvider where
  ty : Ty
  eager : Bool
  singleton : Bool
  deriving Repr, DecidableEq

/-- An entry of `Providers.cache`: either a concrete registered provider or
an `AmbiguousProvider` aggregating several providers matched to one
supertype (di.py 119-166). -/
inductive CacheEntry where
  | single (p : ClassProvider)
  | ambiguous (ty : Ty) (providers : List ClassProvider)
  deriving Repr, DecidableEq

/-- `AbstractInstanceProvider.get_type` on a cache entry. -/
def CacheEntry.getType : CacheEntry → Ty
  | .single p => p.ty
  | .ambiguous t _ => t

/-- `is_eager`: `AmbiguousProvider.is_eager` is always `False` (di.py 150-151). -/
def CacheEntry.isEager : CacheEntry → Bool
  | .single p => p.eager
  | .ambiguous _ _ => false

/-- `is_singleton`: `AmbiguousProvider.is_singleton` is always `False`
(di.py 153-154). -/
def CacheEntry.isSingleton : CacheEntry → Bool
  | .single p => p.singleton
  | .ambiguous _ _ => false

/-- `get_module` of a provider / ambiguous marker (di.py 87-88, 144-145). -/
def CacheEntry.getModule (ct : ClassTable) : CacheEntry → String
  | .single p => (classInfo ct p.ty).module
  | .ambiguous t _ => (classInfo ct t).module

/-- Character-list core of `str.startswith`. -/
def charsStart : List Char → List Char → Bool
  | [], _ => true
  | _ :: _, [] => false
  | c :: cs, d :: ds => c == d && charsStart cs ds

/-- Python `str.startswith`: `strStarts s pre` holds when `s` starts with
`pre` (spelled on character lists so that it evaluates by reduction). -/
def strStarts (s pre : String) : Bool :=
  charsStart pre.data s.data

/-- The static registry state: `Providers.providers` (exact produced type →
provider, di.py 522) and `Providers.cache` (requested type → provider or
ambiguous marker, di.py 523). -/
structure RegState where
  providers : List (Ty × ClassProvider) := []
  cache : List (Ty × CacheEntry) := []
  deriving Repr, DecidableEq

/-- Local predicate `is_injectable` inside `Providers.register`
(di.py 533-546): `object` and abstract classes are excluded from the
ancestor cache walk. -/
def is_injectable (ct : ClassTable) (t : Ty) : Bool :=
  !(t = objectTy) && !(classInfo ct t).isAbstract

/-- Local function `cacheProviderForType` inside `Providers.register`
(di.py 548-566): walk the ancestor chain; a first provider for a type is
cached directly, a second provider for the exact produced type raises
"already registered" (leaving the cache untouched), a second provider for
a shared supertype turns the entry into (or extends) an
`AmbiguousProvider`. The returned `Option String` is the raised
exception, with all mutations made before the raise kept (Python
exceptions do not roll back). -/
def cacheProviderForType (ct : ClassTable) (p : ClassProvider) :
    Nat → Ty → List (Ty × CacheEntry) → List (Ty × CacheEntry) × Option String
  | 0, _, cache => (cache, some ("recursion limit"))
  | fuel + 1, t, cache =>
    let step : Except String (List (Ty × CacheEntry)) :=
      match alookup cache t with
      | none => Except.ok (aset cache t (.single p))
      | some existing =>
        if t = p.ty then
          Except.error ((classInfo ct t).name ++ " already registered")
        else
          match existing with
          | .ambiguous ty ps => Except.ok (aset cache t (.ambiguous ty (ps ++ [p])))
          | .single q => Except.ok (aset cache t (.ambiguous t [q, p]))
    match step with
    | .error e => (cache, some e)
    | .ok cache =>
      (classInfo ct t).bases.foldl
        (fun (acc : List (Ty × CacheEntry) × Option String) s =>
          match acc with
          | (cache, some e) => (cache, some e)
          | (cache, none) =>
            if is_injectable ct s then cacheProviderForType ct p fuel s cache
            else (cache, none))
        (cache, none)

/-- `Providers.register` (di.py 527-574): the exact-type table
`Providers.providers` is overwritten first, then the cache walk runs; an
exception raised by the walk leaves the already-performed mutations in
place. -/
def Providers.register (ct : ClassTable) (fuel : Nat) (p : ClassProvider)
    (s : RegState) : RegState × Option String :=
  let providers := aset s.providers p.ty p
  let (cache, err) := cacheProviderForType ct p fuel p.ty s.cache
  ({ providers := providers, cache := cache }, err)

/-- `Providers.getProvider` (di.py 591-597). -/
def Providers.getProvider (ct : ClassTable) (cache : List (Ty × CacheEntry))
    (t : Ty) : Except String CacheEntry :=
  match alookup cache t with
  | none => Except.error ((classInfo ct t).name ++ " not registered as injectable")
  | some p => Except.ok p

/-! ## The one-time static resolution pass -/

/-- Resolution-time mutable provider state: `InstanceProvider.dependencies`
(di.py 83, `None` until resolved, keyed here by the provider's exact type
because `Providers.providers` holds one class provider per type) and
`ClassInstanceProvider.params` (di.py 306). -/
structure ResolveState where
  deps : List (Ty × List CacheEntry) := []
  params : List (Ty × Nat) := []
  deriving Repr, DecidableEq

/-- `Providers.Context.cycleReport` (di.py 503-517): the names of the
providers on the context joined by " -> ", followed by " -> " and the name
of the provider whose addition closed the cycle. -/
def cycleReport (ct : ClassTable) (deps : List CacheEntry) (p : CacheEntry) : String :=
  String.intercalate " -> " (deps.map (fun q => (classInfo ct q.getType).name))
    ++ " -> " ++ (classInfo ct p.getType).name

/-- `Providers.Context.add` (di.py 496-501): each provider is appended to
the context; if a provider with the same type is already present, an
`InjectorException` with the cycle report is raised. The context is never
popped. -/
def Context.add (ct : ClassTable) (ctx : List CacheEntry) (ps : List CacheEntry) :
    Except String (List CacheEntry) :=
  ps.foldlM
    (fun ctx q =>
      if ctx.any (fun r => r.getType == q.getType) then
        Except.error (cycleReport ct ctx q)
      else
        Except.ok (ctx ++ [q]))
    ctx

/-- `InstanceProvider.add_dependency` (di.py 107-113): a candidate whose
type is a subclass of an already-recorded dependency's type is skipped;
otherwise it is appended and `True` is returned. -/
def add_dependency (ct : ClassTable) (sfuel : Nat) (deps : List CacheEntry)
    (q : CacheEntry) : Bool × List CacheEntry :=
  if deps.any (fun d => issubclass ct sfuel q.getType d.getType) then (false, deps)
  else (true, deps ++ [q])

/-- `ClassInstanceProvider.resolve` (di.py 310-340). On first visit the
dependency list is initialized, the provider is added to the context (which
may raise the cycle error), and every constructor parameter and every
`@inject` method parameter is looked up (raising "not registered" if
missing), counted into `params` for constructor parameters, deduplicated by
`add_dependency`, and recursively resolved when newly added
(`AmbiguousProvider.resolve` is the identity, di.py 159-160). On a revisit
(`dependencies is not None`) the stored dependencies are re-added to the
context, which raises the cycle error if any of them is already on it. -/
def ClassInstanceProvider.resolve (ct : ClassTable) (cache : List (Ty × CacheEntry))
    (sfuel : Nat) :
    Nat → ClassProvider → List CacheEntry → ResolveState →
      Except String (List CacheEntry × ResolveState)
  | 0, _, _, _ => Except.error ("resolution fuel exhausted")
  | fuel + 1, p, ctx, st =>
    match alookup st.deps p.ty with
    | some deps => do
      let ctx ← Context.add ct ctx deps
      Except.ok (ctx, st)
    | none => do
      let st : ResolveState := { st with deps := aset st.deps p.ty [] }
      let ctx ← Context.add ct ctx [.single p]
      let info := classInfo ct p.ty
      let (ctx, st) ← info.ctorParams.foldlM
        (fun (acc : List CacheEntry × ResolveState) param => do
          let (ctx, st) := acc
          let provider ← Providers.getProvider ct cache param
          let st : ResolveState :=
            { st with params := aset st.params p.ty ((alookup st.params p.ty).getD 0 + 1) }
          let curDeps := (alookup st.deps p.ty).getD []
          let (added, newDeps) := add_dependency ct sfuel curDeps provider
          let st : ResolveState := { st with deps := aset st.deps p.ty newDeps }
          if added then
            match provider with
            | .ambiguous _ _ => Except.ok (ctx, st)
            | .single q => ClassInstanceProvider.resolve ct cache sfuel fuel q ctx st
          else
            Except.ok (ctx, st))
        (ctx, st)
      let (ctx, st) ← info.injectParams.foldlM
        (fun (acc : List CacheEntry × ResolveState) params =>
          params.foldlM
            (fun (acc : List CacheEntry × ResolveState) param => do
              let (ctx, st) := acc
              let provider ← Providers.getProvider ct cache param
              let curDeps := (alookup st.deps p.ty).getD []
              let (added, newDeps) := add_dependency ct sfuel curDeps provider
              let st : ResolveState := { st with deps := aset st.deps p.ty newDeps }
              if added then
                match provider with
                | .ambiguous _ _ => Except.ok (ctx, st)
                | .single q => ClassInstanceProvider.resolve ct cache sfuel fuel q ctx st
              else
                Except.ok (ctx, st))
            acc)
        (ctx, st)
      Except.ok (ctx, st)

/-- `Providers.resolve` (di.py 576-584): iterate the registered providers in
registration order, resolving each against a fresh `Context`. A raised
`InjectorException` propagates. The `Providers.resolved` guard (di.py 578)
is modelled by running this pass only when the first environment is built. -/
def Providers.resolvePass (ct : ClassTable) (cache : List (Ty × CacheEntry))
    (sfuel fuel : Nat) (provs : List (Ty × ClassProvider)) (st : ResolveState) :
    Except String ResolveState :=
  provs.foldlM
    (fun st pr =>
      (ClassInstanceProvider.resolve ct cache sfuel fuel pr.2 [] st).map Prod.snd)
    st

/-! ## Environments, scopes and instance creation

Object identity is modelled by numeric ids drawn from an allocator.
`EnvironmentInstanceProvider` objects (di.py 228-290) are "wrappers": one is
created per cache key loaded into an environment, so a wrapper is keyed by
`(environment id, cache key type)`. Each singleton wrapper owns its own
`SingletonScope` cell (di.py 249-252). The wrapper table is static after
environment construction, so it is passed separately from the mutable
`World`. -/

/-- A managed instance: identity plus runtime class. -/
structure Obj where
  id : Nat
  ty : Ty
  deriving Repr, DecidableEq

/-- Observable events: a constructor call with its (truncated) argument
list (di.py 345), and the lifecycle method invocations performed by
`CallableProcessor.processLifecycle` (di.py 926-930). -/
inductive Event where
  | construct (o : Obj) (args : List Obj)
  | initCall (o : Obj) (method : Nat)
  | destroyCall (o : Obj) (method : Nat)
  deriving Repr, DecidableEq

/-- `Lifecycle` (di.py 438-446). -/
inductive Lifecycle where
  | onInit
  | onDestroy
  deriving Repr, DecidableEq

/-- Key of an `EnvironmentInstanceProvider`: the id of the environment that
constructed it and the cache key it was registered under. -/
abbrev WKey := Nat × Ty

/-- An `EnvironmentInstanceProvider` (di.py 228-290): the owning
environment (`self.environment`), the wrapped registry provider
(`self.provider`), its resolved `params` count, and the tweaked dependency
list pointing at the environment's own wrappers (di.py 273-281). The
per-wrapper scope (di.py 249-252) is a `SingletonScope` cell exactly when
the wrapped provider `is_singleton()`; its mutable `value` lives in
`World.cells`. -/
structure Wrapper where
  owner : Nat
  provider : CacheEntry
  params : Nat
  deps : List WKey
  deriving Repr, DecidableEq

/-- Static wrapper table of all constructed environments. -/
abbrev WrapperTable := List (WKey × Wrapper)

/-- The mutable world: the id allocator, every `SingletonScope.value` cell
that has been set (absent key = `None`, di.py 218), the `instances` list of
each environment (di.py 743, 821), and the observable event trace. -/
structure World where
  nextId : Nat := 0
  cells : List (WKey × Obj) := []
  instances : List (Nat × List Obj) := []
  events : List Event := []
  deriving Repr, DecidableEq

/-- `Environment.executeProcessors` (di.py 807-811) as performed by
`CallableProcessor.processLifecycle` with the `OnInitLifecycleCallable` and
`OnDestroyLifecycleCallable` registrations (di.py 926-944): every method of
the instance's class carrying the marker of the matching phase is invoked. -/
def executeProcessors (ct : ClassTable) (lc : Lifecycle) (o : Obj) (w : World) : World :=
  match lc with
  | .onInit =>
    { w with events := w.events ++ (classInfo ct o.ty).onInit.map (Event.initCall o) }
  | .onDestroy =>
    { w with events := w.events ++ (classInfo ct o.ty).onDestroy.map (Event.destroyCall o) }

/-- `Environment.created` (di.py 813-825): append the instance to the
environment's `instances` list, then run the init-phase processors and
return the instance. (The `LifecycleProcessor` re-registration branch,
di.py 816-817, concerns the internal processors which are modelled
intrinsically by `executeProcessors`.) -/
def Environment.created (ct : ClassTable) (envId : Nat) (o : Obj) (w : World) : World :=
  let w : World :=
    { w with instances := aset w.instances envId (((alookup w.instances envId).getD []) ++ [o]) }
  executeProcessors ct .onInit o w

/-- `ClassInstanceProvider.create` (di.py 342-345): call the constructor
with the first `params` resolved arguments (allocating a fresh object),
then `environment.created(...)`. -/
def ClassInstanceProvider.create (ct : ClassTable) (p : ClassProvider) (params : Nat)
    (envId : Nat) (args : List Obj) (w : World) : Obj × World :=
  let o : Obj := { id := w.nextId, ty := p.ty }
  let w : World :=
    { w with nextId := w.nextId + 1, events := w.events ++ [Event.construct o (args.take params)] }
  (o, Environment.created ct envId o w)

/-- Dispatch of `provider.create` on the wrapped registry provider:
a class provider constructs (di.py 342-345), an `AmbiguousProvider` always
raises "multiple candidates" (di.py 162-163). -/
def providerCreate (ct : ClassTable) (entry : CacheEntry) (params : Nat)
    (envId : Nat) (args : List Obj) (w : World) : Except String (Obj × World) :=
  match entry with
  | .single p => Except.ok (ClassInstanceProvider.create ct p params envId args w)
  | .ambiguous t _ => Except.error ("multiple candidates for type " ++ (classInfo ct t).name)

/-- The list comprehension `[provider.create(env) for provider in
self.dependencies]` (di.py 287), evaluated left to right against a
one-instance-creating function. -/
def createList (f : World → WKey → Except String (Obj × World)) :
    List WKey → World → Except String (List Obj × World)
  | [], w => Except.ok ([], w)
  | k :: ks, w =>
    match f w k with
    | Except.error e => Except.error e
    | Except.ok (o, w) =>
      match createList f ks w with
      | Except.error e => Except.error e
      | Except.ok (os, w) => Except.ok (o :: os, w)

/-- `EnvironmentInstanceProvider.create` (di.py 286-287) combined with
`Scope.get` (di.py 202-203) and `SingletonScope.get` (di.py 222-226):
a singleton wrapper returns its memoized value if set, otherwise both kinds
evaluate the dependency argument list (each dependency is itself a wrapper)
and call the wrapped provider's `create` against the wrapper's own
environment; a singleton wrapper then stores the result in its cell. The
environment passed by the caller is only forwarded to dependency wrappers,
which again use their own owning environment, so it is dropped here. -/
def wrapperCreate (ct : ClassTable) (tbl : WrapperTable) :
    Nat → World → WKey → Except String (Obj × World)
  | 0, _, _ => Except.error ("creation fuel exhausted")
  | fuel + 1, w, k =>
    match alookup tbl k with
    | none => Except.error ("missing wrapper")
    | some wr =>
      if wr.provider.isSingleton then
        match alookup w.cells k with
        | some v => Except.ok (v, w)
        | none =>
          match createList (fun w k => wrapperCreate ct tbl fuel w k) wr.deps w with
          | Except.error e => Except.error e
          | Except.ok (args, w) =>
            match providerCreate ct wr.provider wr.params wr.owner args w with
            | Except.error e => Except.error e
            | Except.ok (o, w) => Except.ok (o, { w with cells := aset w.cells k o })
      else
        match createList (fun w k => wrapperCreate ct tbl fuel w k) wr.deps w with
        | Except.error e => Except.error e
        | Except.ok (args, w) => providerCreate ct wr.provider wr.params wr.owner args w

/-- An `Environment` (di.py 706-852) after construction: its identity and
its provider map (requested type → wrapper), merged from the parent's map
(di.py 739-740) and its own freshly created wrappers. -/
structure Environment where
  envId : Nat
  providers : List (Ty × WKey)
  deriving Repr, DecidableEq

/-- `Environment.get` (di.py 838-852): look the type up in the
parent-merged provider map — missing raises "is not supported" — and
delegate creation to the wrapper. -/
def Environment.get (ct : ClassTable) (tbl : WrapperTable) (fuel : Nat)
    (env : Environment) (t : Ty) (w : World) : Except String (Obj × World) :=
  match alookup env.providers t with
  | none => Except.error ((classInfo ct t).name ++ " is not supported")
  | some k => wrapperCreate ct tbl fuel w k

/-- `Environment.destroy` (di.py 829-836): run the destroy-phase processors
for every instance this environment created, then clear its instance
list. -/
def Environment.destroy (ct : ClassTable) (env : Environment) (w : World) : World :=
  let insts := (alookup w.instances env.envId).getD []
  let w := insts.foldl (fun w o => executeProcessors ct .onDestroy o w) w
  { w with instances := aset w.instances env.envId [] }

/-- Environment construction (`Environment.__init__`, di.py 725-804), after
the one-time `Providers.resolve()` call: the provider map starts as a copy
of the parent's map (di.py 739-740); `load_environment` selects the cache
entries whose declaration module starts with the environment class's module
(`scan`, di.py 770, 781) and registers a fresh
`EnvironmentInstanceProvider` for each (di.py 785-786); then
`tweakDependencies` rewires every local wrapper's dependency list through
the merged provider map, raising "missing import" on a miss (di.py
273-281, 788-791); finally every eager provider in the merged map is
created (di.py 800-804). The import-closure recursion over `imports` and
the internal `DIEnvironment` bootstrap (di.py 758-798) only add further
scan prefixes and the intrinsic processors, and are not modelled. -/
def Environment.build (ct : ClassTable) (cfuel : Nat) (regs : RegState)
    (rst : ResolveState) (envId : Nat) (parent : Option Environment)
    (scan : String) (tbl : WrapperTable) (w : World) :
    Except String (Environment × WrapperTable × World) := do
  let inherited := (parent.map (fun p => p.providers)).getD []
  let localProviders := regs.cache.filter
    (fun kv => strStarts (kv.2.getModule ct) scan)
  let provMap := localProviders.foldl
    (fun m kv => aset m kv.1 (envId, kv.1)) inherited
  let tbl := localProviders.foldl
    (fun tbl kv =>
      aset tbl (envId, kv.1)
        { owner := envId
          provider := kv.2
          params := (alookup rst.params kv.2.getType).getD 0
          deps := [] })
    tbl
  let tbl ← localProviders.foldlM
    (fun (tbl : WrapperTable) kv => do
      let rawDeps : List CacheEntry :=
        match kv.2 with
        | .single p => (alookup rst.deps p.ty).getD []
        | .ambiguous _ _ => []
      let deps ← rawDeps.mapM
        (fun d =>
          match alookup provMap d.getType with
          | none => Except.error ("missing import for " ++ (classInfo ct d.getType).name)
          | some wk => Except.ok wk)
      match alookup tbl (envId, kv.1) with
      | none => Except.error ("missing wrapper")
      | some wr => Except.ok (aset tbl (envId, kv.1) { wr with deps := deps }))
    tbl
  let w ← provMap.foldlM
    (fun (w : World) kv =>
      match alookup tbl kv.2 with
      | none => Except.error ("missing wrapper")
      | some wr =>
        if wr.provider.isEager then (wrapperCreate ct tbl cfuel w kv.2).map Prod.snd
        else Except.ok w)
    w
  Except.ok ({ envId := envId, providers := provMap }, tbl, w)

/-- Construction of the first environment of a process (di.py 747-749):
`Environment.__init__` first triggers the one-time static resolution pass,
whose `InjectorException`s propagate out of the constructor before any
provider map is assembled or any instance is created; then the environment
itself is built. -/
def Environment.init (ct : ClassTable) (sfuel rfuel cfuel : Nat) (regs : RegState)
    (envId : Nat) (scan : String) (w : World) :
    Except String (Environment × WrapperTable × World) := do
  let rst ← Providers.resolvePass ct regs.cache sfuel rfuel regs.providers {}
  Environment.build ct cfuel regs rst envId none scan [] w

/-! ## Auxiliary notions used to state the claims -/

/-- Arguments passed to the constructor of `o`, read off the event trace:
the injected dependencies of an instance. -/
def ctorArgs (w : World) (o : Obj) : Option (List Obj) :=
  (w.events.filterMap
    (fun e =>
      match e with
      | .construct o' args => if o' = o then some args else none
      | _ => none)).head?

/-- Allocator sanity: every value held by a singleton cell was allocated
below the current allocation counter. This holds for every world the model
can reach and is the freshness invariant behind the singleton claims. -/
def cellsBelow (w : World) : Prop :=
  ∀ k o, alookup w.cells k = some o → o.id < w.nextId

/-- Modelled from the spec ("the dependency graph is acyclic"): `b` is
reachable from `a` by following constructor parameter types. This is a
specification-side notion used only to state when a provider set is
acyclic; it is not part of the translated code. -/
def ctorReaches (ct : ClassTable) : Nat → Ty → Ty → Bool
  | 0, _, _ => false
  | fuel + 1, a, b =>
    (classInfo ct a).ctorParams.any (fun c => c == b || ctorReaches ct fuel c b)

/-- Modelled from the spec: the constructor-dependency graph over the given
types contains no cycle (no type reaches itself). -/
def ctorGraphAcyclic (ct : ClassTable) (tys : List Ty) (fuel : Nat) : Bool :=
  tys.all (fun t => !(ctorReaches ct fuel t t))

/-! ## Interleaving model of `SingletonScope.get` for the concurrency claim

`SingletonScope.get` (di.py 222-226) is two observable steps: the test
`self.value is None` and, when it observed `None`, the call
`provider.create(...)` followed by the assignment to `self.value` and the
return. The class takes no lock (the `threading` import of di.py line 5 is
unused), so a scheduler may interleave the steps of two threads freely. -/

/-- Program counter of one thread inside `SingletonScope.get`. -/
inductive RacePhase where
  | start
  | creating
  | done (r : Nat)
  deriving Repr, DecidableEq

/-- Shared scope cell (`self.value`), the instance allocator, a counter of
`provider.create` invocations, and each thread's program counter. -/
structure RaceState where
  value : Option Nat := none
  nextId : Nat := 0
  creations : Nat := 0
  threads : List RacePhase
  deriving Repr, DecidableEq

/-- One scheduler step running thread `i`: from `start` the thread
evaluates `self.value is None` (di.py 223) — a present value is returned
immediately (di.py 226), otherwise the thread moves on to create; from
`creating` it runs `provider.create`, assigns the fresh instance to
`self.value` (di.py 224) and returns it. Nothing guards the window between
the two steps. -/
def raceStep (s : RaceState) (i : Nat) : RaceState :=
  match s.threads.get? i with
  | none => s
  | some .start =>
    match s.value with
    | some v => { s with threads := s.threads.set i (.done v) }
    | none => { s with threads := s.threads.set i .creating }
  | some .creating =>
    { s with
      value := some s.nextId
      nextId := s.nextId + 1
      creations := s.creations + 1
      threads := s.threads.set i (.done s.nextId) }
  | some (.done _) => s

/-- Run a schedule (a list of thread indices) from a state. -/
def raceRun (s : RaceState) (sched : List Nat) : RaceState :=
  sched.foldl raceStep s

/-- Two threads about to perform a first-time `get` on a fresh
`SingletonScope`. -/
def raceStart : RaceState :=
  { threads := [.start, .start] }

/-! ## Concrete scenarios

Each claim is exercised on a small registered class hierarchy put through
the full pipeline: `Providers.register` for every `@injectable`, the
resolution pass, environment construction, `get` and `destroy`. Failed
`Except` computations are extracted with an impossible default; the
theorems always pin the `Except.ok` shape explicitly. -/

/-- Scenario for the cycle claims: `A.__init__(self, b: B)` and
`B.__init__(self, a: A)`, both `@injectable()`. -/
def cycCT : ClassTable :=
  [(1, { name := "A", module := "app", bases := [0], ctorParams := [2] }),
   (2, { name := "B", module := "app", bases := [0], ctorParams := [1] })]

/-- Registry after `@injectable()` processed `A` then `B`. -/
def cycRegs : RegState :=
  (Providers.register cycCT 9 { ty := 2, eager := true, singleton := true }
    ((Providers.register cycCT 9 { ty := 1, eager := true, singleton := true } {}).1)).1

/-- Scenario for the false-cycle claim: the acyclic graph
`A(B, C)`, `B(D)`, `C(B)`, `D()`, registered in order A, B, C, D. -/
def diaCT : ClassTable :=
  [(1, { name := "A", module := "app", bases := [0], ctorParams := [2, 3] }),
   (2, { name := "B", module := "app", bases := [0], ctorParams := [4] }),
   (3, { name := "C", module := "app", bases := [0], ctorParams := [2] }),
   (4, { name := "D", module := "app", bases := [0], ctorParams := [] })]

/-- Registry for the acyclic diamond-with-shortcut graph. -/
def diaRegs : RegState :=
  (Providers.register diaCT 9 { ty := 4, eager := false, singleton := true }
    ((Providers.register diaCT 9 { ty := 3, eager := false, singleton := true }
      ((Providers.register diaCT 9 { ty := 2, eager := false, singleton := true }
        ((Providers.register diaCT 9 { ty := 1, eager := false, singleton := true } {}).1)).1)).1)).1

/-- Scenario for the ambiguity claim: interface `I` and two concrete
implementations `C` and `D`, both registered. -/
def ambCT : ClassTable :=
  [(1, { name := "I", module := "app", bases := [0] }),
   (2, { name := "C", module := "app", bases := [1] }),
   (3, { name := "D", module := "app", bases := [1] })]

/-- Registration of `C` into the empty registry. -/
def ambReg1 : RegState × Option String :=
  Providers.register ambCT 9 { ty := 2, eager := false, singleton := true } {}

/-- Registration of `D` on top of `C`. -/
def ambReg2 : RegState × Option String :=
  Providers.register ambCT 9 { ty := 3, eager := false, singleton := true } ambReg1.1

/-- Environment over the ambiguity registry. -/
def ambBuilt : Environment × WrapperTable × World :=
  match Environment.init ambCT 9 9 9 ambReg2.1 1 "app" {} with
  | .ok r => r
  | .error _ => (⟨0, []⟩, [], {})

/-- Scenario for the singleton and lifecycle claims: a single
`@injectable(singleton=True)` class `A` with one `@on_init` method
(method id 10). -/
def sglCT : ClassTable :=
  [(1, { name := "A", module := "app", bases := [0], onInit := [10] })]

/-- Registry holding the singleton provider for `A`. -/
def sglRegs : RegState :=
  (Providers.register sglCT 9 { ty := 1, eager := false, singleton := true } {}).1

/-- Resolution state of the singleton registry. -/
def sglRst : ResolveState :=
  (Providers.resolvePass sglCT sglRegs.cache 9 9 sglRegs.providers {}).toOption.getD {}

/-- First environment over the singleton registry. -/
def sglBuilt : Environment × WrapperTable × World :=
  match Environment.init sglCT 9 9 9 sglRegs 1 "app" {} with
  | .ok r => r
  | .error _ => (⟨0, []⟩, [], {})

/-- First `get(A)` in the first environment. -/
def sglGet1 : Obj × World :=
  match Environment.get sglCT sglBuilt.2.1 9 sglBuilt.1 1 sglBuilt.2.2 with
  | .ok r => r
  | .error _ => (⟨99, 99⟩, {})

/-- A second, independently constructed environment over the same
registry (the resolution pass has already run), built in the world left by
the first environment's `get`. -/
def sglBuilt2 : Environment × WrapperTable × World :=
  match Environment.build sglCT 9 sglRegs sglRst 2 none "app" sglBuilt.2.1 sglGet1.2 with
  | .ok r => r
  | .error _ => (⟨0, []⟩, [], {})

/-- First `get(A)` in the second environment. -/
def sglGet2 : Obj × World :=
  match Environment.get sglCT sglBuilt2.2.1 9 sglBuilt2.1 1 sglBuilt2.2.2 with
  | .ok r => r
  | .error _ => (⟨99, 99⟩, {})

/-- Scenario for the injection claim: `Foo.__init__(self, bar: Bar)` and
`Bar()`, both `@injectable()` singletons. -/
def injCT : ClassTable :=
  [(1, { name := "Foo", module := "app", bases := [0], ctorParams := [2] }),
   (2, { name := "Bar", module := "app", bases := [0] })]

/-- Registry with `Foo` and `Bar` registered. -/
def injRegs : RegState :=
  (Providers.register injCT 9 { ty := 2, eager := false, singleton := true }
    ((Providers.register injCT 9 { ty := 1, eager := false, singleton := true } {}).1)).1

/-- Environment over the injection registry. -/
def injBuilt : Environment × WrapperTable × World :=
  match Environment.init injCT 9 9 9 injRegs 1 "app" {} with
  | .ok r => r
  | .error _ => (⟨0, []⟩, [], {})

/-- `env.get(Foo)`: creates the `Bar` dependency first, then `Foo`. -/
def injGetFoo : Obj × World :=
  match Environment.get injCT injBuilt.2.1 9 injBuilt.1 1 injBuilt.2.2 with
  | .ok r => r
  | .error _ => (⟨99, 99⟩, {})

/-- Scenario for the per-call (prototype) claim: `T` registered with
`singleton=False` and an `@on_destroy` method (id 50). -/
def protoCT : ClassTable :=
  [(1, { name := "T", module := "app", bases := [0], onDestroy := [50] })]

/-- Registry with the non-singleton provider for `T`. -/
def protoRegs : RegState :=
  (Providers.register protoCT 9 { ty := 1, eager := false, singleton := false } {}).1

/-- Environment over the prototype registry. -/
def protoBuilt : Environment × WrapperTable × World :=
  match Environment.init protoCT 9 9 9 protoRegs 1 "app" {} with
  | .ok r => r
  | .error _ => (⟨0, []⟩, [], {})

/-- First `get(T)`. -/
def protoGet1 : Obj × World :=
  match Environment.get protoCT protoBuilt.2.1 9 protoBuilt.1 1 protoBuilt.2.2 with
  | .ok r => r
  | .error _ => (⟨99, 99⟩, {})

/-- Second `get(T)`. -/
def protoGet2 : Obj × World :=
  match Environment.get protoCT protoBuilt.2.1 9 protoBuilt.1 1 protoGet1.2 with
  | .ok r => r
  | .error _ => (⟨99, 99⟩, {})

/-- Scenario for the teardown claim: `P` lives in the parent environment's
module, `C` and `D` in the child's; all three have `@on_destroy` methods
(ids 20, 30, 40). -/
def tearCT : ClassTable :=
  [(2, { name := "P", module := "app.parentmod", bases := [0], onDestroy := [20] }),
   (3, { name := "C", module := "app.childmod", bases := [0], onDestroy := [30] }),
   (4, { name := "D", module := "app.childmod", bases := [0], onDestroy := [40] })]

/-- Registry with `P`, `C`, `D` registered. -/
def tearRegs : RegState :=
  (Providers.register tearCT 9 { ty := 4, eager := false, singleton := true }
    ((Providers.register tearCT 9 { ty := 3, eager := false, singleton := true }
      ((Providers.register tearCT 9 { ty := 2, eager := false, singleton := true } {}).1)).1)).1

/-- Resolution state of the teardown registry. -/
def tearRst : ResolveState :=
  (Providers.resolvePass tearCT tearRegs.cache 9 9 tearRegs.providers {}).toOption.getD {}

/-- The parent environment, scanning `app.parentmod`. -/
def tearParent : Environment × WrapperTable × World :=
  match Environment.build tearCT 9 tearRegs tearRst 1 none "app.parentmod" [] {} with
  | .ok r => r
  | .error _ => (⟨0, []⟩, [], {})

/-- The parent creates its `P` instance. -/
def tearGetP : Obj × World :=
  match Environment.get tearCT tearParent.2.1 9 tearParent.1 2 tearParent.2.2 with
  | .ok r => r
  | .error _ => (⟨99, 99⟩, {})

/-- The child environment, scanning `app.childmod`, with the parent
environment as parent. -/
def tearChild : Environment × WrapperTable × World :=
  match Environment.build tearCT 9 tearRegs tearRst 2 (some tearParent.1) "app.childmod"
      tearParent.2.1 tearGetP.2 with
  | .ok r => r
  | .error _ => (⟨0, []⟩, [], {})

/-- The child creates its `C` instance. -/
def tearGetC : Obj × World :=
  match Environment.get tearCT tearChild.2.1 9 tearChild.1 3 tearChild.2.2 with
  | .ok r => r
  | .error _ => (⟨99, 99⟩, {})

/-- The child creates its `D` instance. -/
def tearGetD : Obj × World :=
  match Environment.get tearCT tearChild.2.1 9 tearChild.1 4 tearGetC.2 with
  | .ok r => r
  | .error _ => (⟨99, 99⟩, {})

/-- The child looks up `P`, which resolves to the parent's singleton. -/
def tearGetP2 : Obj × World :=
  match Environment.get tearCT tearChild.2.1 9 tearChild.1 2 tearGetD.2 with
  | .ok r => r
  | .error _ => (⟨99, 99⟩, {})

/-- First `child.destroy()`. -/
def tearDestroy1 : World :=
  Environment.destroy tearCT tearChild.1 tearGetP2.2

/-- Second `child.destroy()`. -/
def tearDestroy2 : World :=
  Environment.destroy tearCT tearChild.1 tearDestroy1

/-- Scenario for the duplicate-registration claim: class `T` registered
twice with distinguishable flags. -/
def dupCT : ClassTable :=
  [(1, { name := "T", module := "app", bases := [0] })]

/-- First registration of `T` (`eager=True, singleton=True`). -/
def dupReg1 : RegState × Option String :=
  Providers.register dupCT 9 { ty := 1, eager := true, singleton := true } {}

/-- Second registration of `T` (`eager=False, singleton=False`). -/
def dupReg2 : RegState × Option String :=
  Providers.register dupCT 9 { ty := 1, eager := false, singleton := false } dupReg1.1

/-! ## Theorems -/

/-- C2 (counterexample): on the registered cycle `A → B → A`, the one-time
resolution pass does raise an `InjectorException`, but its message is
"A -> B -> B" — the visited path followed by the revisited *dependency* —
and not the claimed full cycle "A → B → A" (in either arrow spelling). -/
theorem c2_cycle_message_counterexample :
    Providers.resolvePass cycCT cycRegs.cache 9 9 cycRegs.providers {} =
      Except.error ("A -> B -> B") ∧
    ("A -> B -> B" : String) ≠ "A → B → A" ∧
    ("A -> B -> B" : String) ≠ "A -> B -> A" :=
  ⟨rfl, by decide, by decide⟩

/-- C2 (amended): with providers `A` depending on `B` and `B` depending on
`A`, constructing an `Environment` raises an `InjectorException` from the
one-time resolution pass — which runs before any provider map is assembled
and before any instance can be created, since instance creation only
happens after `Providers.resolvePass` returns successfully — and the
message carries the readable path "A -> B -> B": the resolution path
followed by the already-visited dependency whose re-addition closed the
cycle. -/
theorem c2_cycle_error_before_any_instance :
    Environment.init cycCT 9 9 9 cycRegs 1 "app" {} = Except.error ("A -> B -> B") ∧
    Providers.resolvePass cycCT cycRegs.cache 9 9 cycRegs.providers {} =
      Except.error ("A -> B -> B") :=
  ⟨rfl, rfl⟩

/-- C3: with concrete providers registered for `C` and `D`, which both
implement the common base `I`, both registrations succeed (no exception);
a `get(I)` on an environment over this registry fails at creation time
with "multiple candidates for type I"; and `get(C)` and `get(D)` still
succeed, returning instances of the respective concrete classes. -/
theorem c3_ambiguity_fails_at_creation :
    ambReg1.2 = none ∧ ambReg2.2 = none ∧
    Environment.get ambCT ambBuilt.2.1 9 ambBuilt.1 1 ambBuilt.2.2 =
      Except.error ("multiple candidates for type I") ∧
    (Environment.get ambCT ambBuilt.2.1 9 ambBuilt.1 2 ambBuilt.2.2).toOption.map
      (fun r => r.1.ty) = some 2 ∧
    (Environment.get ambCT ambBuilt.2.1 9 ambBuilt.1 3 ambBuilt.2.2).toOption.map
      (fun r => r.1.ty) = some 3 :=
  ⟨rfl, rfl, rfl, rfl, rfl⟩

/-- C4 (failing input): the provider set `A(B, C)`, `B(D)`, `C(B)`, `D()`
has an acyclic constructor-dependency graph, yet the resolution pass raises
the cycle error "A -> B -> D -> C -> D": the resolution context is a
visited set that is never popped, so when the diamond shortcut `C → B`
revisits the already-resolved `B`, re-adding `B`'s dependency `D` (which is
still on the context from the first traversal) trips the cycle check. -/
theorem c4_false_cycle_on_acyclic_graph :
    ctorGraphAcyclic diaCT [1, 2, 3, 4] 9 = true ∧
    Providers.resolvePass diaCT diaRegs.cache 9 9 diaRegs.providers {} =
      Except.error ("A -> B -> D -> C -> D") :=
  ⟨rfl, rfl⟩

/-- C5 (counterexample): `SingletonScope.get` holds no lock, so the
schedule "thread 0 checks, thread 1 checks, thread 0 creates, thread 1
creates" is possible on a fresh scope; it runs `provider.create` twice and
hands the two threads different instances — refuting both the
at-most-one-create and the same-single-instance parts of the claim. -/
theorem c5_unguarded_race_counterexample :
    (raceRun raceStart [0, 1, 0, 1]).creations = 2 ∧
    (raceRun raceStart [0, 1, 0, 1]).threads = [.done 0, .done 1] ∧
    (0 : Nat) ≠ 1 :=
  ⟨rfl, rfl, by decide⟩

/-- C5 (amended): `SingletonScope.get` is not guarded by any lock — the
`threading` import is unused — so only non-interleaved executions behave as
claimed: when one thread completes its first-time `get` before the other
starts, `provider.create` runs exactly once and both threads receive the
same single instance; an interleaving of the unguarded check-then-act can
instead double-construct. -/
theorem c5_no_lock_check_then_act :
    (raceRun raceStart [0, 0, 1]).creations = 1 ∧
    (raceRun raceStart [0, 0, 1]).threads = [.done 0, .done 0] :=
  ⟨rfl, rfl⟩

/-- C6: on a first `get(A)` of a managed singleton with an `@on_init`
method, the world before `get` carries no events, and the world returned by
`get` carries exactly the constructor event followed by one init call on
the produced instance — so init ran exactly once, after the constructor
completed, before `get` returned — and a later `get` returns the same
instance without re-running init (the trace is unchanged). -/
theorem c6_init_once_after_ctor_before_return :
    sglBuilt.2.2.events = [] ∧
    Environment.get sglCT sglBuilt.2.1 9 sglBuilt.1 1 sglBuilt.2.2 =
      Except.ok ((⟨0, 1⟩ : Obj), sglGet1.2) ∧
    sglGet1.2.events = [.construct ⟨0, 1⟩ [], .initCall ⟨0, 1⟩ 10] ∧
    Environment.get sglCT sglBuilt.2.1 9 sglBuilt.1 1 sglGet1.2 =
      Except.ok ((⟨0, 1⟩ : Obj), sglGet1.2) :=
  ⟨rfl, rfl, rfl, rfl⟩

/-- C7: the child environment created exactly `C` and `D` (the `P`
instance was created by the parent and sits in the parent's instance
list, even though the child can retrieve it); `child.destroy()` appends
exactly one destroy call for `C` and one for `D` — none for `P` — then
clears the child's instance list while leaving the parent's untouched;
and a second `child.destroy()` changes nothing. -/
theorem c7_destroy_own_instances_once :
    tearGetP2.1 = ⟨0, 2⟩ ∧
    alookup tearGetP2.2.instances 1 = some [⟨0, 2⟩] ∧
    alookup tearGetP2.2.instances 2 = some [⟨1, 3⟩, ⟨2, 4⟩] ∧
    tearDestroy1.events =
      tearGetP2.2.events ++ [.destroyCall ⟨1, 3⟩ 30, .destroyCall ⟨2, 4⟩ 40] ∧
    alookup tearDestroy1.instances 2 = some [] ∧
    alookup tearDestroy1.instances 1 = some [⟨0, 2⟩] ∧
    Environment.destroy tearCT tearChild.1 tearDestroy1 = tearDestroy1 :=
  ⟨rfl, rfl, rfl, rfl, rfl, rfl, rfl⟩

/-- C8: with `Foo(bar: Bar)` and `Bar()` both injectable singletons,
`env.get(Foo)` constructs `Foo` with the `Bar` instance as its injected
constructor argument, and a direct `env.get(Bar)` returns that identical
object (and does not create anything new). -/
theorem c8_injected_singleton_identity :
    Environment.get injCT injBuilt.2.1 9 injBuilt.1 1 injBuilt.2.2 =
      Except.ok ((⟨1, 1⟩ : Obj), injGetFoo.2) ∧
    ctorArgs injGetFoo.2 ⟨1, 1⟩ = some [⟨0, 2⟩] ∧
    Environment.get injCT injBuilt.2.1 9 injBuilt.1 2 injGetFoo.2 =
      Except.ok ((⟨0, 2⟩ : Obj), injGetFoo.2) :=
  ⟨rfl, rfl, rfl⟩

/-- C9: for `T` registered with `singleton=False`, two successive
`env.get(T)` calls each invoke the provider's create — the trace gains one
constructor event per call — and return distinct fresh objects; both
created instances are appended, in order, to the environment's instance
list, and `destroy()` runs their destroy handlers. -/
theorem c9_nonsingleton_fresh_and_tracked :
    Environment.get protoCT protoBuilt.2.1 9 protoBuilt.1 1 protoBuilt.2.2 =
      Except.ok ((⟨0, 1⟩ : Obj), protoGet1.2) ∧
    Environment.get protoCT protoBuilt.2.1 9 protoBuilt.1 1 protoGet1.2 =
      Except.ok ((⟨1, 1⟩ : Obj), protoGet2.2) ∧
    ((⟨0, 1⟩ : Obj)) ≠ ⟨1, 1⟩ ∧
    protoGet2.2.events = [.construct ⟨0, 1⟩ [], .construct ⟨1, 1⟩ []] ∧
    alookup protoGet2.2.instances 1 = some [⟨0, 1⟩, ⟨1, 1⟩] ∧
    (Environment.destroy protoCT protoBuilt.1 protoGet2.2).events =
      protoGet2.2.events ++ [.destroyCall ⟨0, 1⟩ 50, .destroyCall ⟨1, 1⟩ 50] :=
  ⟨rfl, rfl, by decide, rfl, rfl, rfl⟩

/-- C10: registering a second provider for the exact type `T` raises
"T already registered", but `Providers.providers` — the global exact-type
provider table, overwritten before the cache walk runs — already holds the
new provider when the exception fires, while the lookup cache still holds
the first one: the failed registration is not rolled back. -/
theorem c10_overwrite_not_rolled_back :
    dupReg1.2 = none ∧
    dupReg2.2 = some ("T already registered") ∧
    alookup dupReg2.1.providers 1 = some { ty := 1, eager := false, singleton := false } ∧
    alookup dupReg2.1.cache 1 = some (.single { ty := 1, eager := true, singleton := true }) :=
  ⟨rfl, rfl, rfl, rfl⟩

/-! ### Helper lemmas for the singleton-identity claim -/

/-- Updating a key and reading it back yields the written value. -/
theorem alookup_aset_self {κ α : Type} [DecidableEq κ] (m : List (κ × α)) (k : κ) (v : α) :
    alookup (aset m k v) k = some v := by
  induction m with
  | nil => simp [aset, alookup]
  | cons kv rest ih =>
    obtain ⟨k', v'⟩ := kv
    by_cases h : k' = k
    · subst h
      simp [aset, alookup]
    · simp [aset, alookup, h, ih]

/-- Updating one key leaves the other keys' values unchanged. -/
theorem alookup_aset_ne {κ α : Type} [DecidableEq κ] (m : List (κ × α)) (k k' : κ) (v : α)
    (h : k' ≠ k) : alookup (aset m k v) k' = alookup m k' := by
  induction m with
  | nil =>
    simp [aset, alookup]
    intro hk
    exact absurd hk.symm h
  | cons kv rest ih =>
    obtain ⟨k₀, v₀⟩ := kv
    by_cases h0 : k₀ = k
    · subst h0
      have hne : ¬(k₀ = k') := fun hk => h hk.symm
      simp [aset, alookup, hne]
    · simp [aset, alookup, h0, ih]

/-- A successful `provider.create` on a wrapped provider allocates exactly
the next id, bumps the allocator by one and leaves the singleton cells
untouched (only a concrete class provider can succeed; the ambiguous
marker always raises). -/
theorem providerCreate_ok (ct : ClassTable) (entry : CacheEntry) (params envId : Nat)
    (args : List Obj) (w : World) (o : Obj) (w' : World)
    (h : providerCreate ct entry params envId args w = Except.ok (o, w')) :
    o.id = w.nextId ∧ w'.nextId = w.nextId + 1 ∧ w'.cells = w.cells := by
  cases entry with
  | single p =>
    simp only [providerCreate, Except.ok.injEq] at h
    have ho : (ClassInstanceProvider.create ct p params envId args w).1 = o := by rw [h]
    have hw2 : (ClassInstanceProvider.create ct p params envId args w).2 = w' := by rw [h]
    subst ho
    subst hw2
    exact ⟨rfl, rfl, rfl⟩
  | ambiguous t ps => simp [providerCreate] at h

/-- If one creation step preserves the allocator invariant, allocates its
result below the new counter and never decreases the counter, then so does
a dependency-list creation. -/
theorem createList_inv (f : World → WKey → Except String (Obj × World))
    (H : ∀ w k o w', f w k = Except.ok (o, w') → cellsBelow w →
      cellsBelow w' ∧ o.id < w'.nextId ∧ w.nextId ≤ w'.nextId) :
    ∀ (ks : List WKey) (w : World) (os : List Obj) (w' : World),
      createList f ks w = Except.ok (os, w') → cellsBelow w →
      cellsBelow w' ∧ w.nextId ≤ w'.nextId := by
  intro ks
  induction ks with
  | nil =>
    intro w os w' h hw
    simp [createList] at h
    obtain ⟨-, rfl⟩ := h
    exact ⟨hw, le_refl _⟩
  | cons k ks ih =>
    intro w os w' h hw
    simp only [createList] at h
    split at h
    next e heq => simp at h
    next o₁ w₁ heq =>
      split at h
      next e heq2 => simp at h
      next os₁ w₂ heq2 =>
        simp at h
        obtain ⟨h1, h2⟩ := h
        subst h2
        obtain ⟨hw₁, -, hn₁⟩ := H w k o₁ w₁ heq hw
        obtain ⟨hw₂, hn₂⟩ := ih w₁ os₁ w₂ heq2 hw₁
        exact ⟨hw₂, le_trans hn₁ hn₂⟩

/-- Every successful `EnvironmentInstanceProvider.create` preserves the
allocator invariant, returns an object allocated below the resulting
counter, and never decreases the counter. -/
theorem wrapperCreate_inv (ct : ClassTable) (tbl : WrapperTable) :
    ∀ (fuel : Nat) (w : World) (k : WKey) (o : Obj) (w' : World),
      wrapperCreate ct tbl fuel w k = Except.ok (o, w') → cellsBelow w →
      cellsBelow w' ∧ o.id < w'.nextId ∧ w.nextId ≤ w'.nextId := by
  intro fuel
  induction fuel with
  | zero =>
    intro w k o w' h hw
    simp [wrapperCreate] at h
  | succ n ih =>
    intro w k o w' h hw
    simp only [wrapperCreate] at h
    split at h
    next => simp at h
    next wr hwr =>
      split at h
      · split at h
        next v hcell =>
          simp at h
          obtain ⟨rfl, rfl⟩ := h
          exact ⟨hw, hw _ _ hcell, le_refl _⟩
        next hcell =>
          split at h
          next e heqc => simp at h
          next args w₁ heqc =>
            split at h
            next e heqp => simp at h
            next o₂ w₂ heqp =>
              simp at h
              obtain ⟨h1, h2⟩ := h
              subst h1
              subst h2
              obtain ⟨hwl, hnl⟩ := createList_inv _ ih wr.deps w args w₁ heqc hw
              obtain ⟨hid, hn2, hc2⟩ :=
                providerCreate_ok ct wr.provider wr.params wr.owner args w₁ o₂ w₂ heqp
              refine ⟨?_, ?_, ?_⟩
              · intro k' o' hk'
                by_cases hkk : k' = k
                · subst hkk
                  rw [alookup_aset_self] at hk'
                  cases hk'
                  simp [hn2, hid]
                · rw [alookup_aset_ne _ _ _ _ hkk, hc2] at hk'
                  have := hwl k' o' hk'
                  simp [hn2]
                  omega
              · simp [hn2, hid]
              · simp [hn2]
                omega
      · split at h
        next e heqc => simp at h
        next args w₁ heqc =>
          obtain ⟨hwl, hnl⟩ := createList_inv _ ih wr.deps w args w₁ heqc hw
          obtain ⟨hid, hn2, hc2⟩ := providerCreate_ok ct wr.provider wr.params wr.owner args w₁ o w' h
          refine ⟨?_, ?_, ?_⟩
          · intro k' o' hk'
            rw [hc2] at hk'
            have := hwl k' o' hk'
            omega
          · omega
          · omega

/-- A successful first-time singleton creation leaves the created object in
the wrapper's scope cell (`self.value = provider.create(...)`,
di.py 224). -/
theorem wrapperCreate_sets_cell (ct : ClassTable) (tbl : WrapperTable)
    (fuel : Nat) (w : World) (k : WKey) (o : Obj) (w' : World) (wr : Wrapper)
    (h : wrapperCreate ct tbl fuel w k = Except.ok (o, w'))
    (hwr : alookup tbl k = some wr) (hs : wr.provider.isSingleton = true) :
    alookup w'.cells k = some o := by
  cases fuel with
  | zero => simp [wrapperCreate] at h
  | succ n =>
    simp only [wrapperCreate] at h
    split at h
    next heq => rw [hwr] at heq; cases heq
    next wr' heq =>
      rw [hwr] at heq
      cases heq
      split at h
      · split at h
        next v hcell =>
          simp at h
          obtain ⟨rfl, rfl⟩ := h
          exact hcell
        next hcell =>
          split at h
          next e heqc => simp at h
          next args w₁ heqc =>
            split at h
            next e heqp => simp at h
            next o₂ w₂ heqp =>
              simp at h
              obtain ⟨rfl, rfl⟩ := h
              exact alookup_aset_self _ _ _
      · next hns => exact absurd hs hns

/-- A singleton `get` whose cell is already set returns the memoized value
and leaves the world unchanged (`SingletonScope.get`, di.py 222-226). -/
theorem wrapperCreate_cached (ct : ClassTable) (tbl : WrapperTable)
    (n : Nat) (w : World) (k : WKey) (v : Obj) (wr : Wrapper)
    (hwr : alookup tbl k = some wr) (hs : wr.provider.isSingleton = true)
    (hcell : alookup w.cells k = some v) :
    wrapperCreate ct tbl (n + 1) w k = Except.ok (v, w) := by
  simp [wrapperCreate, hwr, hs, hcell]

/-- A successful first-time singleton creation returns an object allocated
at or above the starting allocation counter: it is a fresh object, distinct
from everything allocated before. -/
theorem wrapperCreate_fresh_lb (ct : ClassTable) (tbl : WrapperTable)
    (fuel : Nat) (w : World) (k : WKey) (o : Obj) (w' : World) (wr : Wrapper)
    (h : wrapperCreate ct tbl fuel w k = Except.ok (o, w'))
    (hwr : alookup tbl k = some wr) (hs : wr.provider.isSingleton = true)
    (hcell : alookup w.cells k = none) (hw : cellsBelow w) :
    w.nextId ≤ o.id := by
  cases fuel with
  | zero => simp [wrapperCreate] at h
  | succ n =>
    simp only [wrapperCreate] at h
    split at h
    next heq => rw [hwr] at heq; cases heq
    next wr' heq =>
      rw [hwr] at heq
      cases heq
      split at h
      · split at h
        next v hcell' => rw [hcell] at hcell'; cases hcell'
        next hcell' =>
          split at h
          next e heqc => simp at h
          next args w₁ heqc =>
            split at h
            next e heqp => simp at h
            next o₂ w₂ heqp =>
              simp at h
              obtain ⟨rfl, rfl⟩ := h
              obtain ⟨-, hnl⟩ :=
                createList_inv _ (wrapperCreate_inv ct tbl n) wr.deps w args w₁ heqc hw
              obtain ⟨hid, -, -⟩ :=
                providerCreate_ok ct wr.provider wr.params wr.owner args w₁ o₂ w₂ heqp
              omega
      · next hns => exact absurd hs hns

/-- C1: for a type `T` resolvable in an environment `e1` through a
singleton provider, a repeated `e1.get(T)` returns the identical object
(and changes nothing), and for a second, independently constructed
environment `e2` — whose wrapper for `T` is also a singleton whose scope
cell is still unset, as is the case for any freshly built environment —
`e2.get(T)` returns an object distinct from `e1`'s. -/
theorem c1_singleton_identity
    (ct : ClassTable) (tbl tbl2 : WrapperTable) (fuel fuel2 : Nat)
    (e1 e2 : Environment) (T : Ty) (k1 k2 : WKey) (wr1 wr2 : Wrapper)
    (w w1 w2 : World) (o1 o2 : Obj)
    (hInv : cellsBelow w)
    (hk1 : alookup e1.providers T = some k1)
    (hwr1 : alookup tbl k1 = some wr1)
    (hs1 : wr1.provider.isSingleton = true)
    (hget1 : Environment.get ct tbl fuel e1 T w = Except.ok (o1, w1))
    (hk2 : alookup e2.providers T = some k2)
    (hwr2 : alookup tbl2 k2 = some wr2)
    (hs2 : wr2.provider.isSingleton = true)
    (hfresh : alookup w1.cells k2 = none)
    (hget2 : Environment.get ct tbl2 fuel2 e2 T w1 = Except.ok (o2, w2)) :
    Environment.get ct tbl fuel e1 T w1 = Except.ok (o1, w1) ∧ o1 ≠ o2 := by
  have hw1 : wrapperCreate ct tbl fuel w k1 = Except.ok (o1, w1) := by
    simpa [Environment.get, hk1] using hget1
  have hw2 : wrapperCreate ct tbl2 fuel2 w1 k2 = Except.ok (o2, w2) := by
    simpa [Environment.get, hk2] using hget2
  obtain ⟨hinv1, hlt1, -⟩ := wrapperCreate_inv ct tbl fuel w k1 o1 w1 hw1 hInv
  have hcell1 : alookup w1.cells k1 = some o1 :=
    wrapperCreate_sets_cell ct tbl fuel w k1 o1 w1 wr1 hw1 hwr1 hs1
  constructor
  · cases fuel with
    | zero => simp [wrapperCreate] at hw1
    | succ n =>
      have hagain := wrapperCreate_cached ct tbl n w1 k1 o1 wr1 hwr1 hs1 hcell1
      simp [Environment.get, hk1, hagain]
  · have hge : w1.nextId ≤ o2.id :=
      wrapperCreate_fresh_lb ct tbl2 fuel2 w1 k2 o2 w2 wr2 hw2 hwr2 hs2 hfresh hinv1
    intro hEq
    rw [hEq] at hlt1
    omega

/-- C1 (witness): in the two-environment singleton scenario, the first
environment's repeated `get(A)` returns the same object `⟨0, A⟩` without
changing the world, and the second environment's `get(A)` returned the
distinct object `⟨1, A⟩`. -/
theorem c1_singleton_identity_witness :
    Environment.get sglCT sglBuilt.2.1 9 sglBuilt.1 1 sglGet1.2 =
      Except.ok ((⟨0, 1⟩ : Obj), sglGet1.2) ∧ (⟨0, 1⟩ : Obj) ≠ ⟨1, 1⟩ :=
  c1_singleton_identity sglCT sglBuilt.2.1 sglBuilt2.2.1 9 9 sglBuilt.1 sglBuilt2.1 1
    (1, 1) (2, 1)
    { owner := 1, provider := .single { ty := 1, eager := false, singleton := true },
      params := 0, deps := [] }
    { owner := 2, provider := .single { ty := 1, eager := false, singleton := true },
      params := 0, deps := [] }
    sglBuilt.2.2 sglGet1.2 sglGet2.2 ⟨0, 1⟩ ⟨1, 1⟩
    (by
      intro k o hko
      have hc : sglBuilt.2.2.cells = [] := rfl
      rw [hc] at hko
      simp [alookup] at hko)
    rfl rfl rfl rfl rfl rfl rfl rfl rfl

end Aspyx
